import Mathlib

/-!
# Verification of the LeaveManager MCP server (`src/main.py`)

Shallow embedding of the leave-management tool server: a PostgreSQL-backed
store (`employee_leaves` balance table, `leave_history` date table), the five
registered tools (`get_leave_balance`, `apply_leave`, `get_leave_history`,
`pg_dump_tool`, `pg_restore_tool`), and the subprocess runner `_run_cmd`.

External effects are made explicit:
* the database is a `DB` value threaded through the operations;
* exceptions raised by the driver / subprocess layer are injected as
  parameters (`Option` failure points, `ProcOutcome` process outcomes);
* an operation that lets a Python exception escape to its caller is modelled
  as returning `Except.error`; one that catches everything returns `.ok`.
-/

namespace LeaveManager

/-- A calendar date as stored in the `leave_history.leave_date` DATE column. -/
structure Date where
  year : Nat
  month : Nat
  day : Nat
  deriving DecidableEq

/-- Sort key realising PostgreSQL's chronological ordering on the DATE
column (`ORDER BY leave_date`). On the valid dates the column can hold
(month 1–12, day 1–31) it is injective. -/
def Date.key (d : Date) : Nat := d.year * 10000 + d.month * 100 + d.day

/-- Chronological order used by `ORDER BY leave_date` (non-strict). -/
def dateLe (a b : Date) : Prop := a.key ≤ b.key

/-- Strict chronological order on dates. -/
def dateLt (a b : Date) : Prop := a.key < b.key

instance : DecidableRel dateLe := fun a b => Nat.decLe a.key b.key

instance : DecidableRel dateLt := fun a b => Nat.decLt a.key b.key

instance : IsTotal Date dateLe := ⟨fun a b => Nat.le_total a.key b.key⟩

instance : IsTrans Date dateLe := ⟨fun _ _ _ hab hbc => Nat.le_trans hab hbc⟩

/-- Two-digit zero padding, as in `strftime` fields `%m` and `%d`. -/
def pad2 (n : Nat) : String :=
  if n < 10 then "0" ++ toString n else toString n

/-- Four-digit zero padding, as in the `strftime` field `%Y`. -/
def pad4 (n : Nat) : String :=
  if n < 10 then "000" ++ toString n
  else if n < 100 then "00" ++ toString n
  else if n < 1000 then "0" ++ toString n
  else toString n

/-- `row[0].strftime("%Y-%m-%d")` on a stored date. -/
def formatDate (d : Date) : String :=
  pad4 d.year ++ "-" ++ pad2 d.month ++ "-" ++ pad2 d.day

/-- The relational store consumed by the server: the
`employee_leaves (emp_id, balance)` table and the append-only
`leave_history (emp_id, leave_date)` table. -/
structure DB where
  employee_leaves : List (String × Int)
  leave_history : List (String × Date)
  deriving DecidableEq

/-- `SELECT balance FROM employee_leaves WHERE emp_id = %s` + `fetchone()`:
the balance of the first row whose key equals `emp_id`, if any. -/
def lookupBalance (db : DB) (emp_id : String) : Option Int :=
  (db.employee_leaves.find? (fun r => r.1 == emp_id)).map (fun r => r.2)

/-- Tool `get_leave_balance` (src/main.py lines 76–89), non-failing run. -/
def get_leave_balance (db : DB) (employee_id : String) : String :=
  match lookupBalance db employee_id with
  | some b => employee_id ++ " has " ++ toString b ++ " leave days remaining."
  | none => "Employee ID not found."

/-- Tool `apply_leave` (src/main.py lines 93–122), non-failing run: fetch the
balance, reject unknown employees and over-long requests, otherwise deduct
`len(leave_dates)` days and append one history row per requested date. -/
def apply_leave (db : DB) (employee_id : String) (leave_dates : List Date) :
    DB × String :=
  match lookupBalance db employee_id with
  | none => (db, "Employee ID not found.")
  | some available_balance =>
    let requested_days := leave_dates.length
    if available_balance < (requested_days : Int) then
      (db, "Insufficient leave balance. You requested " ++
        toString requested_days ++ " day(s) but have only " ++
        toString available_balance ++ ".")
    else
      let new_balance := available_balance - (requested_days : Int)
      let db2 : DB :=
        ⟨db.employee_leaves.map
            (fun r => if r.1 == employee_id then (r.1, new_balance) else r),
          db.leave_history ++ leave_dates.map (fun d => (employee_id, d))⟩
      (db2, "Leave applied for " ++ toString requested_days ++
        " day(s). Remaining balance: " ++ toString new_balance ++ ".")

/-- The date list rendered by `get_leave_history`:
`SELECT leave_date FROM leave_history WHERE emp_id = %s ORDER BY leave_date`. -/
def historyDates (db : DB) (employee_id : String) : List Date :=
  List.insertionSort dateLe
    ((db.leave_history.filter (fun r => r.1 == employee_id)).map
      (fun r => r.2))

/-- Tool `get_leave_history` (src/main.py lines 126–150), non-failing run.
If the employee has rows, they are rendered sorted and comma-joined;
otherwise a secondary `SELECT 1 FROM employee_leaves` lookup distinguishes
"no leaves taken" from "employee unknown". -/
def get_leave_history (db : DB) (employee_id : String) : String :=
  let rows := historyDates db employee_id
  if rows ≠ [] then
    "Leave history for " ++ employee_id ++ ": " ++
      String.intercalate ", " (rows.map formatDate)
  else
    match db.employee_leaves.find? (fun r => r.1 == employee_id) with
    | some _ => "Leave history for " ++ employee_id ++ ": No leaves taken."
    | none => "Employee ID not found."

/-! ## Failure-instrumented semantics

`apply_leave` issues its statements on one psycopg2 connection and persists
them with a single `conn.commit()`; an exception raised at any earlier point
reaches the `except` handler with the transaction uncommitted, so the stored
state is unchanged (psycopg2 rolls back a connection closed without commit).
`apply_leave_at` makes the failure point explicit: statement `0` is the
balance `SELECT`, statement `1` the `UPDATE`, statements `2 … D+1` the `D`
history `INSERT`s, and statement `D+2` the `commit` itself.  `some (k, m)`
means the `k`-th statement raises an exception rendering as `m`; an index
past `D+2` (or `none`) means every statement succeeds. -/

/-- Tool `apply_leave` with an injected failure point (see above). -/
def apply_leave_at (db : DB) (employee_id : String) (leave_dates : List Date)
    (fail : Option (Nat × String)) : DB × String :=
  match fail with
  | some (0, m) => (db, "Database error: " ++ m)
  | _ =>
    match lookupBalance db employee_id with
    | none => (db, "Employee ID not found.")
    | some available_balance =>
      let requested_days := leave_dates.length
      if available_balance < (requested_days : Int) then
        (db, "Insufficient leave balance. You requested " ++
          toString requested_days ++ " day(s) but have only " ++
          toString available_balance ++ ".")
      else
        match fail with
        | some (k, m) =>
          if k ≤ requested_days + 2 then (db, "Database error: " ++ m)
          else apply_leave db employee_id leave_dates
        | none => apply_leave db employee_id leave_dates

/-- A Python exception escaping to the tool's caller. -/
inductive PyExn
  | fileNotFound (path : String)
  | generic (msg : String)
  deriving DecidableEq

/-- `get_leave_balance` as seen by the protocol layer: its whole body sits in
`try … except Exception`, so a driver exception (injected as `some m`)
is converted to a string and nothing escapes. -/
def get_leave_balance_run (db : DB) (employee_id : String)
    (fail : Option String) : Except PyExn String :=
  match fail with
  | some m => Except.ok ("Database error: " ++ m)
  | none => Except.ok (get_leave_balance db employee_id)

/-- `apply_leave` as seen by the protocol layer (total: body is wrapped in
`try … except Exception`). -/
def apply_leave_run (db : DB) (employee_id : String) (leave_dates : List Date)
    (fail : Option (Nat × String)) : DB × Except PyExn String :=
  let r := apply_leave_at db employee_id leave_dates fail
  (r.1, Except.ok r.2)

/-- `get_leave_history` as seen by the protocol layer (total: body is wrapped
in `try … except Exception`, covering both queries). -/
def get_leave_history_run (db : DB) (employee_id : String)
    (fail : Option String) : Except PyExn String :=
  match fail with
  | some m => Except.ok ("Database error: " ++ m)
  | none => Except.ok (get_leave_history db employee_id)

/-! ## Subprocess layer -/

/-- Process environment handed to a subprocess: an association list of
variables, with the lookup/overwrite semantics of a Python `dict`. -/
abbrev Env := List (String × String)

/-- `env[k]` as an optional lookup. -/
def envGet (env : Env) (k : String) : Option String :=
  (env.find? (fun p => p.1 == k)).map (fun p => p.2)

/-- `env[k] = v`: overwrite the existing binding or append a new one. -/
def dictSet : Env → String → String → Env
  | [], k, v => [(k, v)]
  | p :: rest, k, v =>
    if p.1 == k then (k, v) :: rest else p :: dictSet rest k v

/-- Outcome of a `subprocess.run` invocation with a timeout: the process
completed (with captured stdout/stderr and exit code), exceeded the timeout,
or the executable did not exist. -/
inductive ProcOutcome
  | completed (stdout stderr : String) (code : Int)
  | timedOut
  | notFound
  deriving DecidableEq

/-- `_run_cmd` (src/main.py lines 16–39): run without a shell, capture both
streams, and always return a summary string — `TimeoutExpired` and
`FileNotFoundError` are caught and rendered, nothing is raised.
(The source's missing-binary message interpolates `cmd[0]`, only reachable
when a process launch was attempted, hence `cmd` non-empty; `headD`
coincides with it there.  Python's `str.strip` is modelled by
`String.trim`.) -/
def runCmd (cmd : List String) (env : Env) (timeout : Nat)
    (outcome : ProcOutcome) : String :=
  match outcome with
  | ProcOutcome.completed stdout stderr code =>
    let out1 : List String := ["$ " ++ String.intercalate " " cmd]
    let out2 :=
      if stdout ≠ "" then out1 ++ ["--- stdout ---\n" ++ stdout.trim] else out1
    let out3 :=
      if stderr ≠ "" then out2 ++ ["--- stderr ---\n" ++ stderr.trim] else out2
    String.intercalate "\n" (out3 ++ ["exit_code=" ++ toString code])
  | ProcOutcome.timedOut =>
    "Command timed out after " ++ toString timeout ++ "s: " ++
      String.intercalate " " cmd
  | ProcOutcome.notFound =>
    "Command not found: " ++ cmd.headD "" ++ " (is it installed and on PATH?)"

def PG_DUMP_PATH : String :=
  "/Applications/Postgres.app/Contents/Versions/latest/bin/pg_dump"

def PG_RESTORE_PATH : String :=
  "/Applications/Postgres.app/Contents/Versions/latest/bin/pg_restore"

/-- Outcome of the plain `subprocess.run(cmd, check=True)` used by
`pg_dump_tool` (no timeout is configured there). -/
inductive DumpOutcome
  | exit (code : Int)
  | notFound
  deriving DecidableEq

/-- Tool `pg_dump_tool` (src/main.py lines 156–163).  `check=True` raises
`CalledProcessError` on a non-zero exit, which the handler converts to a
string; but a missing executable raises `FileNotFoundError`, which no
handler catches, so it escapes to the caller (`Except.error`).
(`str(CalledProcessError)` is modelled by its exit-status sentence.) -/
def pg_dump_tool (dbname output_file fmt : String) (outcome : DumpOutcome) :
    Except PyExn String :=
  match outcome with
  | DumpOutcome.exit code =>
    if code = 0 then Except.ok ("Backup completed: " ++ output_file)
    else Except.ok ("pg_dump failed: Command returned non-zero exit status " ++
      toString code ++ ".")
  | DumpOutcome.notFound => Except.error (PyExn.fileNotFound PG_DUMP_PATH)

/-! ## Restore tools

The source registers `pg_restore_tool` twice; the second `def` rebinds the
name and shadows the first.  Both are embedded: the first as
`pg_restore_invocation_v1` / `pg_restore_tool_v1`, the second (the surviving
binding) under the source name. -/

/-- Command line and environment built by the FIRST `pg_restore_tool`
definition (src/main.py lines 193–210). `base` is `os.environ.copy()`. -/
def pg_restore_invocation_v1 (archive_file target_db user host : String)
    (port : Int) (clean create verbose : Bool) (password : String)
    (extra_args : List String) (base : Env) : List String × Env :=
  let cmd0 := [PG_RESTORE_PATH, "-h", host, "-p", toString port, "-U", user]
  let cmd1 := if clean then cmd0 ++ ["--clean"] else cmd0
  let cmd2 := if create then cmd1 ++ ["-C"] else cmd1
  let cmd3 := if verbose then cmd2 ++ ["-v"] else cmd2
  let cmd4 := cmd3 ++ ["-d", target_db, archive_file]
  let cmd5 := if extra_args ≠ [] then cmd4 ++ extra_args else cmd4
  let env := if password ≠ "" then dictSet base "PGPASSWORD" password else base
  (cmd5, env)

/-- The FIRST `pg_restore_tool` definition (src/main.py lines 169–211): build
the invocation and delegate to `_run_cmd` with its default 600s timeout. -/
def pg_restore_tool_v1 (archive_file target_db user host : String)
    (port : Int) (clean create verbose : Bool) (password : String)
    (extra_args : List String) (base : Env) (outcome : ProcOutcome) : String :=
  let inv := pg_restore_invocation_v1 archive_file target_db user host port
    clean create verbose password extra_args base
  runCmd inv.1 inv.2 600 outcome

/-- Command line and environment built by the SECOND `pg_restore_tool`
definition (src/main.py lines 235–247). -/
def pg_restore_invocation (archive_file target_db user host : String)
    (port : Int) (clean create verbose : Bool) (password : String)
    (extra_args : List String) (base : Env) : List String × Env :=
  let cmd0 := [PG_RESTORE_PATH, "-h", host, "-p", toString port, "-U", user]
  let cmd1 := if clean then cmd0 ++ ["--clean"] else cmd0
  let cmd2 := if create then cmd1 ++ ["-C"] else cmd1
  let cmd3 := if verbose then cmd2 ++ ["-v"] else cmd2
  let cmd4 := cmd3 ++ ["-d", target_db, archive_file]
  let cmd5 := if extra_args ≠ [] then cmd4 ++ extra_args else cmd4
  let env := if password ≠ "" then dictSet base "PGPASSWORD" password else base
  (cmd5, env)

/-- The SECOND `pg_restore_tool` definition (src/main.py lines 213–250), as
seen by the protocol layer.  `dfail = some m` injects an exception raised by
the `disconnect_all` / `drop_database` phase (only reachable when
`auto_drop and create` holds); the surrounding `try … except Exception`
converts it to a string, so nothing ever escapes. -/
def pg_restore_tool (archive_file target_db user host : String) (port : Int)
    (clean create verbose : Bool) (password : String) (auto_drop : Bool)
    (extra_args : List String) (base : Env) (dfail : Option String)
    (outcome : ProcOutcome) : Except PyExn String :=
  match auto_drop && create, dfail with
  | true, some m => Except.ok ("Restore error: " ++ m)
  | _, _ =>
    let inv := pg_restore_invocation archive_file target_db user host port
      clean create verbose password extra_args base
    Except.ok (runCmd inv.1 inv.2 600 outcome)

/-- Observable external calls made by the second `pg_restore_tool`. -/
inductive REvent
  | disconnect (dbname user host password : String)
  | dropDB (dbname user host password : String)
  | restore (cmd : List String) (env : Env)
  deriving DecidableEq

/-- Trace of external calls of a non-failing run of the second
`pg_restore_tool`: when `auto_drop and create` holds, `disconnect_all` then
`drop_database` precede the restore process; otherwise only the restore
process is invoked. -/
def pg_restore_events (archive_file target_db user host : String) (port : Int)
    (clean create verbose : Bool) (password : String) (auto_drop : Bool)
    (extra_args : List String) (base : Env) : List REvent :=
  let inv := pg_restore_invocation archive_file target_db user host port
    clean create verbose password extra_args base
  (if auto_drop && create then
    [REvent.disconnect target_db user host password,
     REvent.dropDB target_db user host password]
   else []) ++ [REvent.restore inv.1 inv.2]

/-! ## Helper lemmas -/

/-- After `UPDATE employee_leaves SET balance = v WHERE emp_id = emp`, a key
that was present looks up to the new balance `v`. -/
theorem find?_update_some (l : List (String × Int)) (emp : String) (v : Int)
    (h : (l.find? (fun r => r.1 == emp)).isSome) :
    ((l.map (fun r => if r.1 == emp then (r.1, v) else r)).find?
      (fun r => r.1 == emp)).map (fun r => r.2) = some v := by
  induction l with
  | nil => simp [List.find?] at h
  | cons a t ih =>
    by_cases ha : a.1 == emp
    · have hf : List.find? (fun r => r.1 == emp)
          ((a.1, v) :: (t.map (fun r => if r.1 == emp then (r.1, v) else r)))
          = some (a.1, v) := by
        rw [List.find?_cons]
        simp only [ha]
      rw [List.map_cons, if_pos ha, hf]
      rfl
    · rw [Bool.not_eq_true] at ha
      have hh : List.find? (fun r => r.1 == emp) (a :: t)
          = List.find? (fun r => r.1 == emp) t := by
        rw [List.find?_cons, ha]
      rw [hh] at h
      have hf : List.find? (fun r => r.1 == emp)
          (a :: (t.map (fun r => if r.1 == emp then (r.1, v) else r)))
          = List.find? (fun r => r.1 == emp)
            (t.map (fun r => if r.1 == emp then (r.1, v) else r)) := by
        rw [List.find?_cons, ha]
      rw [List.map_cons, if_neg (by simp [ha]), hf]
      exact ih h

/-- C1: with the employee present at balance `B` and `D = leave_dates.length`
(duplicates counted): if `D ≤ B` the stored balance becomes `B − D`, exactly
the `D` requested rows are appended to the history, and the success message
carries `D` and the new balance; if `D > B` the state is unchanged and the
message names both `D` and `B`. -/
theorem apply_leave_correct (db : DB) (emp : String) (dates : List Date)
    (B : Int) (hB : lookupBalance db emp = some B) :
    (((dates.length : Int) ≤ B) →
      lookupBalance (apply_leave db emp dates).1 emp =
        some (B - (dates.length : Int)) ∧
      (apply_leave db emp dates).1.leave_history =
        db.leave_history ++ dates.map (fun d => (emp, d)) ∧
      (apply_leave db emp dates).2 =
        "Leave applied for " ++ toString dates.length ++
          " day(s). Remaining balance: " ++
          toString (B - (dates.length : Int)) ++ ".") ∧
    ((B < (dates.length : Int)) →
      (apply_leave db emp dates).1 = db ∧
      (apply_leave db emp dates).2 =
        "Insufficient leave balance. You requested " ++
          toString dates.length ++ " day(s) but have only " ++
          toString B ++ ".") := by
  constructor
  · intro hle
    have hnot : ¬ B < (dates.length : Int) := not_lt.mpr hle
    have hs : (db.employee_leaves.find? (fun r => r.1 == emp)).isSome := by
      unfold lookupBalance at hB
      cases hf : db.employee_leaves.find? (fun r => r.1 == emp) with
      | none => rw [hf] at hB; simp at hB
      | some r => simp
    refine ⟨?_, by simp [apply_leave, hB, if_neg hnot],
      by simp [apply_leave, hB, if_neg hnot]⟩
    have hu := find?_update_some db.employee_leaves emp
      (B - (dates.length : Int)) hs
    simp only [apply_leave, hB, if_neg hnot]
    exact hu
  · intro hlt
    simp only [apply_leave, hB, if_pos hlt]
    exact ⟨by simp, by simp⟩

/-- Witness for C1: the spec's § 8 example, balance 5 and two dates. -/
theorem apply_leave_correct_witness :
    lookupBalance ⟨[("E1", 5)], []⟩ "E1" = some 5 ∧
    (apply_leave ⟨[("E1", 5)], []⟩ "E1"
      [⟨2025, 4, 17⟩, ⟨2025, 4, 18⟩]).2 =
      "Leave applied for 2 day(s). Remaining balance: 3." ∧
    lookupBalance
      (apply_leave ⟨[("E1", 5)], []⟩ "E1"
        [⟨2025, 4, 17⟩, ⟨2025, 4, 18⟩]).1 "E1" = some 3 := by
  refine ⟨by decide, ?_, ?_⟩
  · exact (((apply_leave_correct ⟨[("E1", 5)], []⟩ "E1"
      [⟨2025, 4, 17⟩, ⟨2025, 4, 18⟩] 5 (by decide)).1
        (by decide)).2.2).trans (by decide)
  · exact (((apply_leave_correct ⟨[("E1", 5)], []⟩ "E1"
      [⟨2025, 4, 17⟩, ⟨2025, 4, 18⟩] 5 (by decide)).1
        (by decide)).1).trans (by decide)

/-- C2: if any statement after the balance check fails — the balance
`UPDATE` (index 1), any of the `D` history `INSERT`s (indices 2 … D+1), or
the final `commit` (index D+2) — nothing is committed: the stored balance
and history are exactly the pre-state's, and the tool returns the
descriptive error string. -/
theorem apply_leave_atomic (db : DB) (emp : String) (dates : List Date)
    (k : Nat) (m : String) (B : Int)
    (hB : lookupBalance db emp = some B)
    (hcheck : ¬ B < (dates.length : Int))
    (hk1 : 1 ≤ k) (hk2 : k ≤ dates.length + 2) :
    apply_leave_at db emp dates (some (k, m)) =
      (db, "Database error: " ++ m) := by
  cases k with
  | zero => exact absurd hk1 (by decide)
  | succ j =>
    simp only [apply_leave_at, hB, if_neg hcheck]
    rw [if_pos hk2]

/-- Witness for C2: a failure at the `UPDATE` statement leaves the store
untouched. -/
theorem apply_leave_atomic_witness :
    apply_leave_at ⟨[("E1", 5)], []⟩ "E1" [⟨2025, 4, 17⟩]
      (some (1, "connection lost")) =
      (⟨[("E1", 5)], []⟩, "Database error: connection lost") :=
  apply_leave_atomic ⟨[("E1", 5)], []⟩ "E1" [⟨2025, 4, 17⟩] 1
    "connection lost" 5 (by decide) (by decide) (by decide) (by decide)

/-- C3: `apply_leave`, the only balance mutator, preserves non-negativity of
every stored balance, and a request exceeding the current balance leaves the
store unchanged. -/
theorem apply_leave_balance_nonneg (db : DB) (emp : String)
    (dates : List Date) (h : ∀ r ∈ db.employee_leaves, 0 ≤ r.2) :
    (∀ r ∈ (apply_leave db emp dates).1.employee_leaves, 0 ≤ r.2) ∧
    (∀ B, lookupBalance db emp = some B → B < (dates.length : Int) →
      (apply_leave db emp dates).1 = db) := by
  cases hlb : lookupBalance db emp with
  | none =>
    constructor
    · simpa only [apply_leave, hlb] using h
    · intro B hB; exact absurd hB (by simp)
  | some B =>
    by_cases hc : B < (dates.length : Int)
    · constructor
      · simpa only [apply_leave, hlb, if_pos hc] using h
      · intro B' hB' _
        simp only [apply_leave, hlb, if_pos hc]
    · constructor
      · intro r hr
        simp only [apply_leave, hlb, if_neg hc] at hr
        rw [List.mem_map] at hr
        obtain ⟨a, ha, rfl⟩ := hr
        by_cases hkey : a.1 == emp
        · rw [if_pos hkey]
          have : (dates.length : Int) ≤ B := not_lt.mp hc
          simpa using this
        · rw [if_neg hkey]
          exact h a ha
      · intro B' hB' hlt
        injection hB' with hB'
        exact absurd (hB' ▸ hlt) hc

/-- Witness for C3: a store of non-negative balances stays non-negative. -/
theorem apply_leave_balance_nonneg_witness :
    (∀ r ∈ (apply_leave ⟨[("E1", 2), ("E2", 0)], []⟩ "E1"
        [⟨2025, 4, 17⟩, ⟨2025, 4, 18⟩]).1.employee_leaves, 0 ≤ r.2) ∧
    (∀ B, lookupBalance ⟨[("E1", 2), ("E2", 0)], []⟩ "E1" = some B →
      B < (([⟨2025, 4, 17⟩, ⟨2025, 4, 18⟩] : List Date).length : Int) →
      (apply_leave ⟨[("E1", 2), ("E2", 0)], []⟩ "E1"
        [⟨2025, 4, 17⟩, ⟨2025, 4, 18⟩]).1 = ⟨[("E1", 2), ("E2", 0)], []⟩) :=
  apply_leave_balance_nonneg ⟨[("E1", 2), ("E2", 0)], []⟩ "E1"
    [⟨2025, 4, 17⟩, ⟨2025, 4, 18⟩] (by decide)

/-- A missing employee key means the balance `find?` comes back empty. -/
theorem lookupBalance_eq_none (db : DB) (emp : String) :
    lookupBalance db emp = none ↔
      db.employee_leaves.find? (fun r => r.1 == emp) = none := by
  unfold lookupBalance
  cases db.employee_leaves.find? (fun r => r.1 == emp) <;> simp

/-- C7 (amended): `get_leave_history` renders the employee's stored dates in
non-decreasing chronological order (a sorted permutation of the stored
multiset), comma-joined and formatted `YYYY-MM-DD`; the order is strictly
ascending when the stored dates are pairwise distinct. -/
theorem get_leave_history_sorted (db : DB) (emp : String) :
    List.Sorted dateLe (historyDates db emp) ∧
    (historyDates db emp).Perm
      ((db.leave_history.filter (fun r => r.1 == emp)).map (fun r => r.2)) ∧
    (historyDates db emp ≠ [] →
      get_leave_history db emp =
        "Leave history for " ++ emp ++ ": " ++
          String.intercalate ", " ((historyDates db emp).map formatDate)) ∧
    ((((db.leave_history.filter (fun r => r.1 == emp)).map
        (fun r => r.2)).map Date.key).Nodup →
      List.Sorted dateLt (historyDates db emp)) := by
  have hsorted : List.Sorted dateLe (historyDates db emp) :=
    List.sorted_insertionSort dateLe _
  have hperm : (historyDates db emp).Perm
      ((db.leave_history.filter (fun r => r.1 == emp)).map (fun r => r.2)) :=
    List.perm_insertionSort dateLe _
  refine ⟨hsorted, hperm, ?_, ?_⟩
  · intro hne
    simp only [get_leave_history]
    rw [if_pos hne]
  · intro hnd
    have hnd2 : ((historyDates db emp).map Date.key).Nodup :=
      ((hperm.map Date.key).symm).nodup hnd
    have hpne : (historyDates db emp).Pairwise
        (fun a b => Date.key a ≠ Date.key b) :=
      (List.pairwise_map).mp hnd2
    exact (hsorted.and hpne).imp
      (fun hab => Nat.lt_of_le_of_ne hab.1 hab.2)

/-- C7 counterexample: the store reached by applying leave twice for the
same date holds a duplicate, and the history query then renders the date
twice — an ascending but not strictly ascending sequence. -/
theorem get_leave_history_not_strict :
    (apply_leave ⟨[("E1", 5)], []⟩ "E1" [⟨2025, 1, 1⟩, ⟨2025, 1, 1⟩]).1 =
      ⟨[("E1", 3)], [("E1", ⟨2025, 1, 1⟩), ("E1", ⟨2025, 1, 1⟩)]⟩ ∧
    get_leave_history
        ⟨[("E1", 3)], [("E1", ⟨2025, 1, 1⟩), ("E1", ⟨2025, 1, 1⟩)]⟩ "E1" =
      "Leave history for E1: 2025-01-01, 2025-01-01" ∧
    ¬ List.Sorted dateLt (historyDates
        ⟨[("E1", 3)], [("E1", ⟨2025, 1, 1⟩), ("E1", ⟨2025, 1, 1⟩)]⟩ "E1") := by
  refine ⟨by decide, by decide, by decide⟩

/-- Witness for C7: two distinct dates inserted out of order are rendered,
comma-joined, and come back strictly ascending. -/
theorem get_leave_history_sorted_witness :
    get_leave_history
        ⟨[("E1", 9)], [("E1", ⟨2025, 2, 2⟩), ("E1", ⟨2025, 1, 1⟩)]⟩ "E1" =
      "Leave history for " ++ "E1" ++ ": " ++
        String.intercalate ", " ((historyDates
          ⟨[("E1", 9)], [("E1", ⟨2025, 2, 2⟩), ("E1", ⟨2025, 1, 1⟩)]⟩
          "E1").map formatDate) ∧
    List.Sorted dateLt (historyDates
      ⟨[("E1", 9)], [("E1", ⟨2025, 2, 2⟩), ("E1", ⟨2025, 1, 1⟩)]⟩ "E1") :=
  ⟨(get_leave_history_sorted
      ⟨[("E1", 9)], [("E1", ⟨2025, 2, 2⟩), ("E1", ⟨2025, 1, 1⟩)]⟩
      "E1").2.2.1 (by decide),
   (get_leave_history_sorted
      ⟨[("E1", 9)], [("E1", ⟨2025, 2, 2⟩), ("E1", ⟨2025, 1, 1⟩)]⟩
      "E1").2.2.2 (by decide)⟩

/-- C8: in a reachable store (every history row's key is a known employee),
an unknown employee identifier draws the not-found reply from the balance
query, the leave application, and the history query; and a known employee
with no history rows draws the distinct no-leaves-taken reply. -/
theorem unknown_employee_not_found (db : DB) (emp emp2 : String)
    (dates : List Date)
    (hreach : ∀ r ∈ db.leave_history,
      (db.employee_leaves.find? (fun q => q.1 == r.1)).isSome)
    (hmiss : lookupBalance db emp = none)
    (hknown : lookupBalance db emp2 ≠ none)
    (hempty : db.leave_history.filter (fun r => r.1 == emp2) = []) :
    get_leave_balance db emp = "Employee ID not found." ∧
    apply_leave db emp dates = (db, "Employee ID not found.") ∧
    get_leave_history db emp = "Employee ID not found." ∧
    get_leave_history db emp2 =
      "Leave history for " ++ emp2 ++ ": No leaves taken." := by
  have hfind := (lookupBalance_eq_none db emp).mp hmiss
  have hfil : db.leave_history.filter (fun r => r.1 == emp) = [] := by
    rw [List.filter_eq_nil_iff]
    intro r hr hpr
    have hsome := hreach r hr
    have : r.1 = emp := by simpa using hpr
    rw [this, hfind] at hsome
    simp at hsome
  have hrows : historyDates db emp = [] := by
    unfold historyDates
    rw [hfil]
    rfl
  have hrows2 : historyDates db emp2 = [] := by
    unfold historyDates
    rw [hempty]
    rfl
  refine ⟨?_, ?_, ?_, ?_⟩
  · simp [get_leave_balance, hmiss]
  · simp [apply_leave, hmiss]
  · simp only [get_leave_history, hrows]
    rw [if_neg (by simp), hfind]
  · simp only [get_leave_history, hrows2]
    rw [if_neg (by simp)]
    cases hk : db.employee_leaves.find? (fun r => r.1 == emp2) with
    | none => exact absurd ((lookupBalance_eq_none db emp2).mpr hk) hknown
    | some r => rfl

/-- Witness for C8: one known employee, an unknown identifier. -/
theorem unknown_employee_not_found_witness :
    get_leave_balance ⟨[("E1", 5)], []⟩ "E2" = "Employee ID not found." ∧
    apply_leave ⟨[("E1", 5)], []⟩ "E2" [⟨2025, 1, 1⟩] =
      (⟨[("E1", 5)], []⟩, "Employee ID not found.") ∧
    get_leave_history ⟨[("E1", 5)], []⟩ "E2" = "Employee ID not found." ∧
    get_leave_history ⟨[("E1", 5)], []⟩ "E1" =
      "Leave history for " ++ "E1" ++ ": No leaves taken." :=
  unknown_employee_not_found ⟨[("E1", 5)], []⟩ "E2" "E1" [⟨2025, 1, 1⟩]
    (by decide) (by decide) (by decide) (by decide)

/-! ## String and subprocess helper lemmas -/

/-- Appends whose left parts differ within their common length differ. -/
theorem string_append_ne (p q a b : String) (n : Nat)
    (hp : n ≤ p.data.length) (hq : n ≤ q.data.length)
    (hne : p.data.take n ≠ q.data.take n) :
    p ++ a ≠ q ++ b := by
  intro h
  apply hne
  have hd := congrArg String.data h
  rw [String.data_append, String.data_append] at hd
  have ht := congrArg (List.take n) hd
  rwa [List.take_append_of_le_length hp, List.take_append_of_le_length hq]
    at ht

/-- Every completed-run report starts with the echoed command line. -/
theorem runCmd_completed_head (cmd : List String) (env : Env) (t : Nat)
    (out err : String) (code : Int) :
    ∃ r, runCmd cmd env t (ProcOutcome.completed out err code) =
      "$ " ++ r := by
  by_cases ho : out = "" <;> by_cases he : err = ""
  · refine ⟨String.intercalate " " cmd ++
      ("\n" ++ ("exit_code=" ++ toString code)), ?_⟩
    simp [runCmd, ho, he, String.intercalate, String.intercalate.go,
      String.append_assoc]
  · refine ⟨String.intercalate " " cmd ++
      ("\n" ++ ("--- stderr ---\n" ++ (err.trim ++
        ("\n" ++ ("exit_code=" ++ toString code))))), ?_⟩
    simp [runCmd, ho, he, String.intercalate, String.intercalate.go,
      String.append_assoc]
  · refine ⟨String.intercalate " " cmd ++
      ("\n" ++ ("--- stdout ---\n" ++ (out.trim ++
        ("\n" ++ ("exit_code=" ++ toString code))))), ?_⟩
    simp [runCmd, ho, he, String.intercalate, String.intercalate.go,
      String.append_assoc]
  · refine ⟨String.intercalate " " cmd ++
      ("\n" ++ ("--- stdout ---\n" ++ (out.trim ++
        ("\n" ++ ("--- stderr ---\n" ++ (err.trim ++
          ("\n" ++ ("exit_code=" ++ toString code)))))))), ?_⟩
    simp [runCmd, ho, he, String.intercalate, String.intercalate.go,
      String.append_assoc]

/-- C5: `_run_cmd` never raises (it is a total function into `String`) and
maps its three failure modes to distinct reports: a timeout names the
timeout seconds and the command, a missing executable names the binary, and
a completed process yields the combined report carrying the exit code and,
when non-empty, the captured stderr block. -/
theorem runCmd_failure_modes (cmd : List String) (env : Env) (t : Nat)
    (out err : String) (code : Int) :
    runCmd cmd env t ProcOutcome.timedOut =
      "Command timed out after " ++ toString t ++ "s: " ++
        String.intercalate " " cmd ∧
    runCmd cmd env t ProcOutcome.notFound =
      "Command not found: " ++ cmd.headD "" ++
        " (is it installed and on PATH?)" ∧
    (out = "" → err = "" →
      runCmd cmd env t (ProcOutcome.completed out err code) =
        ("$ " ++ String.intercalate " " cmd) ++ "\n" ++
          ("exit_code=" ++ toString code)) ∧
    (out = "" → err ≠ "" →
      runCmd cmd env t (ProcOutcome.completed out err code) =
        ("$ " ++ String.intercalate " " cmd) ++ "\n" ++
          ("--- stderr ---\n" ++ err.trim) ++ "\n" ++
          ("exit_code=" ++ toString code)) ∧
    runCmd cmd env t ProcOutcome.timedOut ≠
      runCmd cmd env t ProcOutcome.notFound ∧
    runCmd cmd env t ProcOutcome.timedOut ≠
      runCmd cmd env t (ProcOutcome.completed out err code) ∧
    runCmd cmd env t ProcOutcome.notFound ≠
      runCmd cmd env t (ProcOutcome.completed out err code) := by
  have e1 : runCmd cmd env t ProcOutcome.timedOut =
      "Command timed out after " ++ (toString t ++
        ("s: " ++ String.intercalate " " cmd)) := by
    simp [runCmd, String.append_assoc]
  have e2 : runCmd cmd env t ProcOutcome.notFound =
      "Command not found: " ++ (cmd.headD "" ++
        " (is it installed and on PATH?)") := by
    simp [runCmd, String.append_assoc]
  refine ⟨rfl, rfl, ?_, ?_, ?_, ?_, ?_⟩
  · intro ho he
    simp [runCmd, ho, he, String.intercalate, String.intercalate.go]
  · intro ho he
    simp [runCmd, ho, he, String.intercalate, String.intercalate.go,
      String.append_assoc]
  · rw [e1, e2]
    exact string_append_ne _ _ _ _ 9 (by decide) (by decide) (by decide)
  · obtain ⟨r, hr⟩ := runCmd_completed_head cmd env t out err code
    rw [e1, hr]
    exact string_append_ne _ _ _ _ 1 (by decide) (by decide) (by decide)
  · obtain ⟨r, hr⟩ := runCmd_completed_head cmd env t out err code
    rw [e2, hr]
    exact string_append_ne _ _ _ _ 1 (by decide) (by decide) (by decide)

/-- Witness for C5: a failing `pg_restore` run with captured stderr, and the
timeout report differing from it. -/
theorem runCmd_failure_modes_witness :
    runCmd ["pg_restore"] [] 600
        (ProcOutcome.completed "" "error: fail\n" 1) =
      ("$ " ++ String.intercalate " " ["pg_restore"]) ++ "\n" ++
        ("--- stderr ---\n" ++ ("error: fail\n").trim) ++ "\n" ++
        ("exit_code=" ++ toString (1 : Int)) ∧
    runCmd ["pg_restore"] [] 600 ProcOutcome.timedOut ≠
      runCmd ["pg_restore"] [] 600
        (ProcOutcome.completed "" "error: fail\n" 1) :=
  ⟨(runCmd_failure_modes ["pg_restore"] [] 600 "" "error: fail\n" 1).2.2.2.1
      rfl (by decide),
   (runCmd_failure_modes ["pg_restore"] [] 600 "" "error: fail\n" 1).2.2.2.2.2.1⟩

/-- C4 (amended): the three database-backed tools and the restore tool are
total — every run, under any injected failure, returns `Except.ok` with a
descriptive string — and `pg_dump_tool` is total for completed dump
processes of any exit code, but lets `FileNotFoundError` escape when the
dump executable is missing. -/
theorem operations_total (db : DB) (emp : String) (dates : List Date)
    (bfail hfail : Option String) (afail : Option (Nat × String))
    (dname ofile fmt : String) (code : Int)
    (archive target user host : String) (port : Int)
    (clean create verbose auto_drop : Bool) (password : String)
    (extra : List String) (base : Env) (dfail : Option String)
    (outcome : ProcOutcome) :
    (get_leave_balance_run db emp bfail).isOk = true ∧
    (apply_leave_run db emp dates afail).2.isOk = true ∧
    (get_leave_history_run db emp hfail).isOk = true ∧
    (pg_restore_tool archive target user host port clean create verbose
      password auto_drop extra base dfail outcome).isOk = true ∧
    (pg_dump_tool dname ofile fmt (DumpOutcome.exit code)).isOk = true ∧
    pg_dump_tool dname ofile fmt DumpOutcome.notFound =
      Except.error (PyExn.fileNotFound PG_DUMP_PATH) := by
  refine ⟨?_, ?_, ?_, ?_, ?_, rfl⟩
  · cases bfail <;> rfl
  · rfl
  · cases hfail <;> rfl
  · cases hd : auto_drop && create <;> cases dfail <;>
      simp [pg_restore_tool, hd, Except.isOk, Except.toBool]
  · by_cases hc : code = 0 <;> simp [pg_dump_tool, hc, Except.isOk,
      Except.toBool]

/-- C4 counterexample: with the dump executable missing, `pg_dump_tool`
raises `FileNotFoundError` to its caller instead of returning a string. -/
theorem pg_dump_tool_raises :
    pg_dump_tool "mydb" "backup.tar" "t" DumpOutcome.notFound =
      Except.error (PyExn.fileNotFound PG_DUMP_PATH) := rfl

/-- C6: with auto-drop and create both requested, the second
`pg_restore_tool` performs session termination, then the database drop, and
only then invokes the restore process; with either flag absent, neither
termination nor drop occurs. -/
theorem pg_restore_phase_order (archive target user host : String)
    (port : Int) (clean create verbose : Bool) (password : String)
    (auto_drop : Bool) (extra : List String) (base : Env) :
    (auto_drop = true → create = true →
      pg_restore_events archive target user host port clean create verbose
          password auto_drop extra base =
        [REvent.disconnect target user host password,
         REvent.dropDB target user host password,
         REvent.restore
           (pg_restore_invocation archive target user host port clean create
             verbose password extra base).1
           (pg_restore_invocation archive target user host port clean create
             verbose password extra base).2]) ∧
    ((auto_drop = false ∨ create = false) →
      pg_restore_events archive target user host port clean create verbose
          password auto_drop extra base =
        [REvent.restore
          (pg_restore_invocation archive target user host port clean create
            verbose password extra base).1
          (pg_restore_invocation archive target user host port clean create
            verbose password extra base).2]) := by
  constructor
  · intro ha hc
    subst ha; subst hc
    rfl
  · intro h
    rcases h with h | h <;> subst h
    · rfl
    · cases auto_drop <;> rfl

/-- Witness for C6: a restore with auto-drop and create both set emits
disconnect, drop, restore in that order. -/
theorem pg_restore_phase_order_witness :
    pg_restore_events "a.dump" "db1" "u" "localhost" 5432 false true true
        "pw" true [] [] =
      [REvent.disconnect "db1" "u" "localhost" "pw",
       REvent.dropDB "db1" "u" "localhost" "pw",
       REvent.restore
         (pg_restore_invocation "a.dump" "db1" "u" "localhost" 5432 false
           true true "pw" [] []).1
         (pg_restore_invocation "a.dump" "db1" "u" "localhost" 5432 false
           true true "pw" [] []).2] :=
  (pg_restore_phase_order "a.dump" "db1" "u" "localhost" 5432 false true
    true "pw" true [] []).1 rfl rfl

/-- A `dict` assignment makes the key look up to the assigned value. -/
theorem envGet_dictSet (env : Env) (k v : String) :
    envGet (dictSet env k v) k = some v := by
  induction env with
  | nil => simp [dictSet, envGet, List.find?]
  | cons p rest ih =>
    by_cases hp : p.1 == k
    · simp [dictSet, hp, envGet, List.find?]
    · rw [Bool.not_eq_true] at hp
      have hstep : dictSet (p :: rest) k v = p :: dictSet rest k v := by
        simp [dictSet, hp]
      rw [hstep]
      have hfind : List.find? (fun q => q.1 == k) (p :: dictSet rest k v) =
          List.find? (fun q => q.1 == k) (dictSet rest k v) := by
        rw [List.find?_cons, hp]
      unfold envGet
      rw [hfind]
      exact ih

/-- C9: the restore command line never carries the password — it is
identical for any two passwords — and a non-empty password reaches the
subprocess only through the `PGPASSWORD` environment variable (an empty one
leaves the environment untouched). -/
theorem restore_password_noninterference (archive target user host : String)
    (port : Int) (clean create verbose : Bool) (p p2 : String)
    (extra : List String) (base : Env) (hp : p ≠ "") :
    (pg_restore_invocation archive target user host port clean create
      verbose p extra base).1 =
    (pg_restore_invocation archive target user host port clean create
      verbose p2 extra base).1 ∧
    envGet (pg_restore_invocation archive target user host port clean create
      verbose p extra base).2 "PGPASSWORD" = some p ∧
    (pg_restore_invocation archive target user host port clean create
      verbose "" extra base).2 = base := by
  refine ⟨rfl, ?_, by simp [pg_restore_invocation]⟩
  have henv : (pg_restore_invocation archive target user host port clean
      create verbose p extra base).2 = dictSet base "PGPASSWORD" p := by
    simp [pg_restore_invocation, hp]
  rw [henv]
  exact envGet_dictSet base "PGPASSWORD" p

/-- Witness for C9: a concrete invocation exposes the password only via
`PGPASSWORD`. -/
theorem restore_password_noninterference_witness :
    envGet (pg_restore_invocation "a.dump" "db1" "u" "localhost" 5432 false
      false true "pw" [] []).2 "PGPASSWORD" = some "pw" :=
  (restore_password_noninterference "a.dump" "db1" "u" "localhost" 5432
    false false true "pw" "other" [] [] (by decide)).2.1

/-- C10: whenever the drop branch of the second (shadowing)
`pg_restore_tool` is not taken — auto-drop or create absent — it builds the
same command line and environment as the first definition and returns the
same report. -/
theorem pg_restore_second_matches_first (archive target user host : String)
    (port : Int) (clean create verbose : Bool) (password : String)
    (auto_drop : Bool) (extra : List String) (base : Env)
    (dfail : Option String) (outcome : ProcOutcome)
    (h : auto_drop = false ∨ create = false) :
    pg_restore_invocation archive target user host port clean create verbose
        password extra base =
      pg_restore_invocation_v1 archive target user host port clean create
        verbose password extra base ∧
    pg_restore_tool archive target user host port clean create verbose
        password auto_drop extra base dfail outcome =
      Except.ok (pg_restore_tool_v1 archive target user host port clean
        create verbose password extra base outcome) := by
  refine ⟨rfl, ?_⟩
  rcases h with h | h <;> subst h
  · rfl
  · cases auto_drop <;> rfl

/-- Witness for C10: auto-drop set but create absent — both definitions
agree. -/
theorem pg_restore_second_matches_first_witness :
    pg_restore_tool "a.dump" "db1" "u" "localhost" 5432 true false true
        "pw" true [] [] none (ProcOutcome.completed "" "" 0) =
      Except.ok (pg_restore_tool_v1 "a.dump" "db1" "u" "localhost" 5432 true
        false true "pw" [] [] (ProcOutcome.completed "" "" 0)) :=
  (pg_restore_second_matches_first "a.dump" "db1" "u" "localhost" 5432 true
    false true "pw" true [] [] none (ProcOutcome.completed "" "" 0)
    (Or.inr rfl)).2

end LeaveManager
